import Mathlib

/-!
Verification development for the course-completion analytics dashboard
(source files: Insights-Agent30.py, Second_Sheet_Agent_2_6.py, Combined_Final_2.py).

The Python sources are shallowly embedded: pandas series operations become
list operations, the external language-model agent becomes an oracle function
`String → Except String String`, Streamlit session state becomes explicit
state records, and Python exceptions become `Except` / explicit error fields.
-/

namespace Learning3

/-- A calendar date, as parsed by pandas `to_datetime`. -/
structure Date where
  year : Nat
  month : Nat
  day : Nat
  deriving DecidableEq

/-- One row of the loaded spreadsheet (`Dummy_Course_Data.xlsx`).
Columns used by the code: Platform, Employee Role, Main Organization Unit,
Course Name, Registration Date (nullable), Course Completion Date (nullable). -/
structure Record where
  employeeId : String
  mainOrganizationUnit : String
  country : String
  platform : String
  courseName : String
  courseLevel : String
  employeeRole : String
  registrationDate : Option Date
  courseCompletionDate : Option Date
  deriving DecidableEq

/-! ### pandas `value_counts` machinery

`Series.value_counts()` counts occurrences of each distinct value and returns
the pairs sorted by count, descending.  We realise it as: distinct keys in
first-appearance order, each paired with its occurrence count, stably sorted
by count descending. -/

/-- Number of occurrences of `a` in `l`. -/
def countOccs {α : Type} [DecidableEq α] (a : α) (l : List α) : Nat :=
  (l.filter (fun x => x = a)).length

/-- The distinct elements of `l`, keeping the first occurrence of each. -/
def keysInOrder {α : Type} [DecidableEq α] : List α → List α
  | [] => []
  | x :: xs => x :: (keysInOrder xs).filter (fun y => y ≠ x)

/-- Each distinct value of `l` paired with its occurrence count. -/
def countsList {α : Type} [DecidableEq α] (l : List α) : List (α × Nat) :=
  (keysInOrder l).map (fun k => (k, countOccs k l))

/-- Ordering of (key, count) pairs by count, descending. -/
def countDescRel {α : Type} (a b : α × Nat) : Prop := b.2 ≤ a.2

/-- Ordering of (key, count) pairs by count, ascending. -/
def countAscRel {α : Type} (a b : α × Nat) : Prop := a.2 ≤ b.2

instance {α : Type} : DecidableRel (@countDescRel α) :=
  fun a b => inferInstanceAs (Decidable (b.2 ≤ a.2))

instance {α : Type} : DecidableRel (@countAscRel α) :=
  fun a b => inferInstanceAs (Decidable (a.2 ≤ b.2))

instance {α : Type} : IsTotal (α × Nat) countDescRel :=
  ⟨fun a b => Nat.le_total b.2 a.2⟩

instance {α : Type} : IsTrans (α × Nat) countDescRel :=
  ⟨fun _ _ _ h1 h2 => Nat.le_trans h2 h1⟩

instance {α : Type} : IsTotal (α × Nat) countAscRel :=
  ⟨fun a b => Nat.le_total a.2 b.2⟩

instance {α : Type} : IsTrans (α × Nat) countAscRel :=
  ⟨fun _ _ _ h1 h2 => Nat.le_trans h1 h2⟩

/-- pandas `value_counts()`: distinct values with counts, sorted by count
descending. -/
def valueCountsDesc {α : Type} [DecidableEq α] (l : List α) : List (α × Nat) :=
  List.insertionSort countDescRel (countsList l)

/-- pandas `Series.nsmallest(5)` applied to a value-counts series: stable
ascending re-sort by count, first five kept. -/
def nsmallest5 {α : Type} (vc : List (α × Nat)) : List (α × Nat) :=
  (List.insertionSort countAscRel vc).take 5

/-! ### Monthly groupings (`dt.month`, `dt.to_period("M")`)

`value_counts` drops nulls, so records whose date column is null do not
contribute to these series. -/

/-- Year-month ordering used by `sort_index()` on period-indexed series. -/
def periodLe (a b : Nat × Nat) : Prop :=
  a.1 < b.1 ∨ (a.1 = b.1 ∧ a.2 ≤ b.2)

instance : DecidableRel periodLe :=
  fun a b => inferInstanceAs (Decidable (a.1 < b.1 ∨ (a.1 = b.1 ∧ a.2 ≤ b.2)))

/-- `series.dt.to_period("M").value_counts().sort_index()`:
distinct (year, month) periods of `ps`, each with its count, sorted by period. -/
def periodCounts (ps : List (Nat × Nat)) : List ((Nat × Nat) × Nat) :=
  (List.insertionSort periodLe (keysInOrder ps)).map (fun p => (p, countOccs p ps))

/-- (year, month) of every non-null completion date. -/
def completionPeriods (tbl : List Record) : List (Nat × Nat) :=
  tbl.filterMap (fun r => r.courseCompletionDate.map (fun d => (d.year, d.month)))

/-- (year, month) of every non-null registration date. -/
def registrationPeriods (tbl : List Record) : List (Nat × Nat) :=
  tbl.filterMap (fun r => r.registrationDate.map (fun d => (d.year, d.month)))

/-- `df["Course Completion Date"].dt.to_period("M").value_counts().sort_index()`. -/
def monthCounts (tbl : List Record) : List ((Nat × Nat) × Nat) :=
  periodCounts (completionPeriods tbl)

/-- `df["Registration Date"].dt.to_period("M").value_counts().sort_index()`. -/
def registrationMonthCounts (tbl : List Record) : List ((Nat × Nat) × Nat) :=
  periodCounts (registrationPeriods tbl)

/-- Month number (1..12) of every non-null completion date. -/
def completionMonths (tbl : List Record) : List Nat :=
  tbl.filterMap (fun r => r.courseCompletionDate.map (fun d => d.month))

/-- `df["Course Completion Date"].dt.month.value_counts().sort_index()`. -/
def monthOfCompletionCounts (tbl : List Record) : List (Nat × Nat) :=
  (List.insertionSort (fun a b => a ≤ b) (keysInOrder (completionMonths tbl))).map
    (fun m => (m, countOccs m (completionMonths tbl)))

/-! ### First difference (`diff().fillna(0)`) -/

/-- `series.diff().fillna(0)`: entry 0 becomes 0 (its NaN is filled), entry
`i+1` becomes `s[i+1] - s[i]`. -/
def diffFillZero (l : List Nat) : List Int :=
  match l with
  | [] => []
  | x :: xs =>
    0 :: List.zipWith (fun (prev cur : Nat) => (cur : Int) - (prev : Int)) (x :: xs) xs

/-- The "Completion variance to previous month" series: monthly completion
counts paired with their first difference (first value 0). -/
def completionVariance (tbl : List Record) : List ((Nat × Nat) × Int) :=
  let mc := monthCounts tbl
  (mc.map Prod.fst).zip (diffFillZero (mc.map Prod.snd))

/-! ### The chart renderer (`render_chart` in Second_Sheet_Agent_2_6.py) -/

/-- The chart styles offered by the per-metric selectbox
(`["Bar", "Line", "Pie", "Table"]`). -/
inductive ChartType where
  | bar
  | line
  | pie
  | table
  deriving DecidableEq

/-- The aggregate series computed for a metric before drawing. -/
inductive PlotData where
  | cat : List (String × Nat) → PlotData
  | monthNat : List (Nat × Nat) → PlotData
  | periodInt : List ((Nat × Nat) × Int) → PlotData
  deriving DecidableEq

/-- An effect performed on the matplotlib axes. -/
inductive DrawAction where
  | bar : PlotData → DrawAction
  | line : PlotData → DrawAction
  | pie : PlotData → DrawAction
  | tableDraw : PlotData → DrawAction
  | axisOff : DrawAction
  | plotLine : String → List ((Nat × Nat) × Nat) → DrawAction
  | legend : DrawAction
  deriving DecidableEq

/-- Whether a draw action actually draws chart content (a series, pie, bars
or table cells), as opposed to axes configuration. -/
def DrawAction.isContent : DrawAction → Bool
  | .bar _ => true
  | .line _ => true
  | .pie _ => true
  | .tableDraw _ => true
  | .plotLine _ _ => true
  | .axisOff => false
  | .legend => false

/-- Result of one `render_chart` call: the axes effects that happened, and
the uncaught exception if one was raised. -/
structure RenderResult where
  actions : List DrawAction
  error : Option String
  deriving DecidableEq

/-- `data = df["Course Name"].value_counts().nlargest(5)`
(metric "Top 5 courses by completion"). -/
def top5CoursesData (tbl : List Record) : List (String × Nat) :=
  (valueCountsDesc (tbl.map (fun r => r.courseName))).take 5

/-- `data = df["Course Name"].value_counts().nsmallest(5)`
(metric "Bottom 5 courses by completion"). -/
def bottom5CoursesData (tbl : List Record) : List (String × Nat) :=
  nsmallest5 (valueCountsDesc (tbl.map (fun r => r.courseName)))

/-- `df[df["Course Completion Date"].isna()]["Course Name"].value_counts().nlargest(5)`
(metric "Currently Enrolled"). -/
def currentlyEnrolledData (tbl : List Record) : List (String × Nat) :=
  (valueCountsDesc
    ((tbl.filter (fun r => r.courseCompletionDate.isNone)).map
      (fun r => r.courseName))).take 5

/-- The `if metric == ... : data = ...` chain of `render_chart`.  `none`
means no branch matched, so the local variable `data` was never assigned. -/
def metricData (metric : String) (tbl : List Record) : Option PlotData :=
  if metric = "Completion by Platform" then
    some (.cat (valueCountsDesc (tbl.map (fun r => r.platform))))
  else if metric = "Completion by Employee Role" then
    some (.cat (valueCountsDesc (tbl.map (fun r => r.employeeRole))))
  else if metric = "Completion by Organization" then
    some (.cat (valueCountsDesc (tbl.map (fun r => r.mainOrganizationUnit))))
  else if metric = "Top 5 courses by completion" then
    some (.cat (top5CoursesData tbl))
  else if metric = "Bottom 5 courses by completion" then
    some (.cat (bottom5CoursesData tbl))
  else if metric = "Currently Enrolled" then
    some (.cat (currentlyEnrolledData tbl))
  else if metric = "Number of completions" then
    some (.monthNat (monthOfCompletionCounts tbl))
  else if metric = "Completion variance to previous month" then
    some (.periodInt (completionVariance tbl))
  else
    none

/-- The dual-series metric name (handled by an early-returning branch of
`render_chart`). -/
def dualTrendMetric : String :=
  "Number of employees registered vs completed (monthly trend)"

/-- `render_chart(metric, chart_type, ax)`.  The dual-trend branch plots the
two monthly series and returns before the chart-type dispatch; every other
branch computes `data` (if its metric matched) and then dispatches on the
chart type, where an unassigned `data` raises `UnboundLocalError` at its
first use. -/
def render_chart (metric : String) (ct : ChartType) (tbl : List Record) :
    RenderResult :=
  if metric = dualTrendMetric then
    { actions := [DrawAction.plotLine "Registered" (registrationMonthCounts tbl),
                  DrawAction.plotLine "Completed" (monthCounts tbl),
                  DrawAction.legend],
      error := none }
  else
    match metricData metric tbl, ct with
    | some d, ChartType.bar => { actions := [DrawAction.bar d], error := none }
    | some d, ChartType.line => { actions := [DrawAction.line d], error := none }
    | some d, ChartType.pie => { actions := [DrawAction.pie d], error := none }
    | some d, ChartType.table =>
        { actions := [DrawAction.axisOff, DrawAction.tableDraw d], error := none }
    | none, ChartType.table =>
        { actions := [DrawAction.axisOff], error := some "UnboundLocalError" }
    | none, _ => { actions := [], error := some "UnboundLocalError" }

/-- The fixed metric list of Second_Sheet_Agent_2_6.py. -/
def metrics : List String :=
  ["Currently Enrolled", "Number of completions",
   "Completion variance to previous month",
   "Number of employees registered vs completed (monthly trend)",
   "Top 5 courses by completion", "Bottom 5 courses by completion",
   "Completion by Platform", "Completion by Employee Role",
   "Completion by Organization"]

/-! ### The insight catalog and prompt composition (Insights-Agent30.py) -/

/-- `insight_options`: the fixed ordered catalog of 11 labels and prompts. -/
def insight_options : List (String × String) :=
  [("1. Employees with 2 or more completions",
    "Number of employees who have completed 2 or more courses."),
   ("2. Employees with 1 completion",
    "Number of employees who have completed exactly 1 course."),
   ("3. Top 3 organizations by completion",
    "Top 3 organization units with the highest number of completions."),
   ("4. Top 3 orgs in each country by completion",
    "Top 3 organization units by completions in each country."),
   ("5. Bottom 3 organizations by completion",
    "Bottom 3 organization units with the least completions."),
   ("6. Bottom 3 orgs where registration is high but completion is low",
    "Bottom 3 orgs where registration is high but completion is low."),
   ("7. Top 3 platforms by registration and completion",
    "Top 3 platforms with the highest registrations and completions."),
   ("8. Bottom 3 platforms where registration is high but completion is low",
    "Bottom 3 platforms where registration is high but completion is low."),
   ("9. Top 3 employee roles by completions",
    "Top 3 employee roles based on number of completions."),
   ("10. Split of completion by course level",
    "Split of completions across different course levels."),
   ("11. Course level with high registration but low completion",
    "Which course levels have high registration but low completion?")]

/-- `insight_options[label]` as a lookup. -/
def lookupInsight (label : String) : Option String :=
  (insight_options.find? (fun it => it.1 = label)).map Prod.snd

/-- The catalog prompt composition used by the single-insight handler, the
Generate All loop and `daily_auto_email`:
the f-string "Analyze the dataset and return this insight:" plus a blank
line plus the catalog prompt text. -/
def mkInsightPrompt (t : String) : String :=
  "Analyze the dataset and return this insight:\n\n" ++ t

/-- The free-text composition of the Smart Q&A ("Ask AI") handler: a
triple-quoted f-string with a different framing sentence. -/
def askAIPrompt (q : String) : String :=
  "\nYou are an AI analyst. Based on the dataset, answer the following question in 5 lines maximum:\n\n"
    ++ q ++ "\n"

/-! ### Batch generation ("Generate All" handler and `daily_auto_email`) -/

/-- The per-item placeholder substituted on a per-item failure. -/
def skippedPlaceholder (e : String) : String :=
  "[⚠️ Skipped due to error: " ++ e ++ "]"

/-- One iteration of the batch loop: submit the composed catalog prompt,
keep the answer, or substitute the placeholder on failure. -/
def batchItemResult (agent : String → Except String String)
    (promptText : String) : String :=
  match agent (mkInsightPrompt promptText) with
  | Except.ok r => r
  | Except.error e => skippedPlaceholder e

/-- The block appended to `full_summary` for one catalog item. -/
def entryBlock (label result : String) : String :=
  "\n\n### " ++ label ++ "\n" ++ result ++ "\n"

/-- The (label, result) pairs produced by a batch run, one per catalog item. -/
def generateAllEntries (agent : String → Except String String) :
    List (String × String) :=
  insight_options.map (fun it => (it.1, batchItemResult agent it.2))

/-- The `full_summary` accumulator loop of the "Generate All" handler
(also the loop of `daily_auto_email`). -/
def generateAllSummary (agent : String → Except String String) : String :=
  insight_options.foldl
    (fun acc it => acc ++ entryBlock it.1 (batchItemResult agent it.2)) ""

/-- Concatenation of a list of strings. -/
def concatAll : List String → String
  | [] => ""
  | s :: rest => s ++ concatAll rest

/-! ### The rate-limit retry of the Smart Q&A handler -/

/-- `beginsWith needle hay`: does `hay` start with `needle`? -/
def beginsWith : List Char → List Char → Bool
  | [], _ => true
  | _ :: _, [] => false
  | a :: as, b :: bs => a == b && beginsWith as bs

/-- Python `needle in hay` on strings (substring containment). -/
def containsSubList (needle : List Char) : List Char → Bool
  | [] => needle.isEmpty
  | c :: rest => beginsWith needle (c :: rest) || containsSubList needle rest

/-- The test `"Rate limit" in str(e)` of the Ask AI handler. -/
def containsRateLimit (e : String) : Bool :=
  containsSubList "Rate limit".toList e.toList

instance {ε α : Type} [DecidableEq ε] [DecidableEq α] :
    DecidableEq (Except ε α) := fun x y =>
  match x, y with
  | Except.ok a, Except.ok b =>
    if h : a = b then isTrue (by rw [h])
    else isFalse (by intro he; cases he; exact h rfl)
  | Except.ok _, Except.error _ => isFalse (by intro h; cases h)
  | Except.error _, Except.ok _ => isFalse (by intro h; cases h)
  | Except.error a, Except.error b =>
    if h : a = b then isTrue (by rw [h])
    else isFalse (by intro he; cases he; exact h rfl)

/-- Trace of one Ask AI query: its final outcome, how many agent attempts
were made, and the total fixed delay slept before resubmitting. -/
structure RetryTrace where
  result : Except String String
  attempts : Nat
  delayUnits : Nat
  deriving DecidableEq

/-- The inner try/except of the Ask AI handler: one attempt; on a failure
whose text contains "Rate limit", sleep 20 and resubmit exactly once,
propagating whatever the second attempt returns; any other failure is
re-raised unchanged.  `attempt n` is the outcome of the n-th submission. -/
def askAIQuery (attempt : Nat → Except String String) : RetryTrace :=
  match attempt 0 with
  | Except.ok r => { result := Except.ok r, attempts := 1, delayUnits := 0 }
  | Except.error e =>
    if containsRateLimit e then
      { result := attempt 1, attempts := 2, delayUnits := 20 }
    else
      { result := Except.error e, attempts := 1, delayUnits := 0 }

/-! ### Session state and the interactive handlers -/

/-- Session state touched by the Insights sheet (Insights-Agent30.py). -/
structure Sheet1State where
  lastInsight : Option String
  allInsights : Option String
  deriving DecidableEq

/-- The "Generate Insight" handler: look the selected label up in the
catalog, submit the composed prompt, and on success store the answer in
`st.session_state["last_insight"]`; any exception is caught and shown via
`st.error`, leaving the state untouched. -/
def generateInsightHandler (agent : String → Except String String)
    (label : String) (s : Sheet1State) : Sheet1State × List String :=
  match lookupInsight label with
  | none => (s, ["Error: KeyError"])
  | some t =>
    match agent (mkInsightPrompt t) with
    | Except.ok r => ({ s with lastInsight := some r }, [])
    | Except.error e => (s, ["Error: " ++ e])

/-- One entry of `st.session_state["report_data"]` in the second sheet. -/
structure ReportEntry where
  insight : String
  chartType : ChartType
  chartPath : Option String
  deriving DecidableEq

/-- Session state touched by the second sheet (Second_Sheet_Agent_2_6.py). -/
structure Sheet2State where
  reportData : List (String × ReportEntry)
  finalPdf : Option String
  deriving DecidableEq

/-- The prompt composed per metric by the "Generate Insights & Charts"
handler. -/
def giPrompt (metric customText : String) : String :=
  "Explain: " ++ metric ++ ". Context: " ++ customText ++
    ". Keep it concise (5 lines)."

/-- The metric loop of the "Generate Insights & Charts" handler.  There is
no try/except around `gpt_suggest_insights`, so the first agent failure
aborts the loop with an uncaught exception, leaving whatever entries were
already written. -/
def giLoop (agent : String → Except String String) (customText : String) :
    List String → List (String × ReportEntry) →
    List (String × ReportEntry) × Option String
  | [], acc => (acc, none)
  | m :: ms, acc =>
    match agent (giPrompt m customText) with
    | Except.ok ins =>
        giLoop agent customText ms (acc ++ [(m, ⟨ins, ChartType.bar, none⟩)])
    | Except.error e => (acc, some e)

/-- The "Generate Insights & Charts" handler: warn and do nothing when no
metric is selected; otherwise reset `st.session_state["report_data"]` to
empty and run the metric loop.  The second component is the uncaught
exception, if the loop raised one. -/
def generateInsightsHandler (agent : String → Except String String)
    (selected : List String) (customText : String) (s : Sheet2State) :
    Sheet2State × Option String :=
  if selected.isEmpty then (s, none)
  else
    let p := giLoop agent customText selected []
    ({ s with reportData := p.1 }, p.2)

/-! ### Email delivery (`send_email_with_attachments`) -/

/-- The environment an email send runs against: the configuration values
read from the process environment and oracles for the fallible transport
steps. -/
structure MailEnv where
  emailUsername : Option String
  emailPassword : Option String
  emailReceivers : Option String
  emailHost : Option String
  emailPort : Option String
  readFile : String → Except String (List Nat)
  smtpConnect : Except String Unit
  smtpStartTls : Except String Unit
  smtpLogin : Except String Unit
  smtpSend : Except String Unit

/-- The body of the `try` block of `send_email_with_attachments`, as a
sequence of fallible steps in source order: read the receiver list
(`None.split` raises), parse the port (`int(None)` / `int("x")` raise),
read each requested attachment, then connect, starttls, login and send. -/
def sendSteps (env : MailEnv) (audioPath pdfPath : Option String) :
    Except String Unit := do
  let _receivers ←
    match env.emailReceivers with
    | none =>
        Except.error "AttributeError: NoneType object has no attribute split"
    | some r => Except.ok (r.splitOn ",")
  let _port ←
    match env.emailPort with
    | none => Except.error "TypeError: int() argument must be a string"
    | some s =>
      match s.toNat? with
      | none => Except.error "ValueError: invalid literal for int()"
      | some n => Except.ok n
  match audioPath with
  | some p => do
      let _ ← env.readFile p
      pure ()
  | none => pure ()
  match pdfPath with
  | some p => do
      let _ ← env.readFile p
      pure ()
  | none => pure ()
  env.smtpConnect
  env.smtpStartTls
  env.smtpLogin
  env.smtpSend

/-- `send_email_with_attachments`: the whole body sits in one try/except;
success returns `True`, any exception is caught, surfaced through
`st.error(f"Email Error: ...")`, and turned into `False`. -/
def send_email_with_attachments (env : MailEnv) (_subject _body : String)
    (audioPath pdfPath : Option String) : Bool × List String :=
  match sendSteps env audioPath pdfPath with
  | Except.ok _ => (true, [])
  | Except.error e => (false, ["Email Error: " ++ e])

/-! ### Concrete inputs used by witnesses and counterexamples -/

/-- A record with the fields the renderer does not inspect held fixed. -/
def mkRec (course : String) (reg comp : Option Date) : Record :=
  { employeeId := "E1", mainOrganizationUnit := "Org1", country := "US",
    platform := "Web", courseName := course, courseLevel := "Beginner",
    employeeRole := "Engineer", registrationDate := reg,
    courseCompletionDate := comp }

/-! ### Helper lemmas about the value-counts machinery -/

theorem mem_keysInOrder {α : Type} [DecidableEq α] (a : α) :
    ∀ l : List α, a ∈ keysInOrder l ↔ a ∈ l
  | [] => Iff.rfl
  | x :: xs => by
    simp only [keysInOrder, List.mem_cons, List.mem_filter,
      mem_keysInOrder a xs, decide_eq_true_eq]
    constructor
    · rintro (rfl | ⟨h, _⟩)
      · exact Or.inl rfl
      · exact Or.inr h
    · rintro (rfl | h)
      · exact Or.inl rfl
      · by_cases hax : a = x
        · exact Or.inl hax
        · exact Or.inr ⟨h, hax⟩

theorem countsList_count {α : Type} [DecidableEq α] {l : List α} {c : α}
    {n : Nat} (h : (c, n) ∈ countsList l) : n = countOccs c l := by
  simp only [countsList, List.mem_map] at h
  obtain ⟨k, _, hk⟩ := h
  cases hk
  rfl

theorem countsList_complete {α : Type} [DecidableEq α] {l : List α} {c : α}
    (h : c ∈ l) : (c, countOccs c l) ∈ countsList l := by
  simp only [countsList, List.mem_map]
  exact ⟨c, (mem_keysInOrder c l).mpr h, rfl⟩

theorem mem_valueCountsDesc {α : Type} [DecidableEq α] {l : List α}
    {p : α × Nat} : p ∈ valueCountsDesc l ↔ p ∈ countsList l :=
  (List.perm_insertionSort countDescRel (countsList l)).mem_iff

theorem pairwise_take_drop {α : Type} {r : α → α → Prop} {l : List α}
    (h : List.Pairwise r l) (n : Nat) :
    ∀ a ∈ l.take n, ∀ b ∈ l.drop n, r a b := by
  have h2 : List.Pairwise r (l.take n ++ l.drop n) := by
    rwa [List.take_append_drop]
  exact fun a ha b hb => (List.pairwise_append.mp h2).2.2 a ha b hb

theorem valueCountsDesc_sorted {α : Type} [DecidableEq α] (l : List α) :
    List.Pairwise countDescRel (valueCountsDesc l) :=
  List.sorted_insertionSort countDescRel (countsList l)

/-! ## Claim C4 -/

/-- C4: For the dual-series registered-vs-completed monthly-trend metric, the
rendered chart is the same for every requested chart style (bar, line, pie,
table): the renderer ignores the requested style and always renders the two
aligned monthly count series as a dual-line plot (with a legend and no
error). -/
theorem C4_dual_trend_ignores_chart_style (ct ct' : ChartType)
    (tbl : List Record) :
    render_chart dualTrendMetric ct tbl = render_chart dualTrendMetric ct' tbl ∧
    render_chart dualTrendMetric ct tbl =
      { actions := [DrawAction.plotLine "Registered" (registrationMonthCounts tbl),
                    DrawAction.plotLine "Completed" (monthCounts tbl),
                    DrawAction.legend],
        error := none } := by
  constructor <;> simp [render_chart]

/-! ## Claim C2 -/

/-- C2: For every call of the Ask AI handler into the query adapter, at most
one automatic retry is performed, and only when the failure text contains the
rate-limit signature "Rate limit"; the retry sleeps exactly 20 time units and
resubmits once, after which whatever the second attempt produced (answer or
failure) is what the caller sees; a failure without the rate-limit signature
propagates unchanged after a single attempt. -/
theorem C2_rate_limit_retry_policy (attempt : Nat → Except String String) :
    (askAIQuery attempt).attempts ≤ 2 ∧
    (∀ r, attempt 0 = Except.ok r →
      askAIQuery attempt =
        { result := Except.ok r, attempts := 1, delayUnits := 0 }) ∧
    (∀ e, attempt 0 = Except.error e → containsRateLimit e = true →
      askAIQuery attempt =
        { result := attempt 1, attempts := 2, delayUnits := 20 }) ∧
    (∀ e, attempt 0 = Except.error e → containsRateLimit e = false →
      askAIQuery attempt =
        { result := Except.error e, attempts := 1, delayUnits := 0 }) := by
  refine ⟨?_, ?_, ?_, ?_⟩
  · cases h : attempt 0 with
    | ok r => simp [askAIQuery, h]
    | error e =>
      by_cases hr : containsRateLimit e
      · simp [askAIQuery, h, hr]
      · simp [askAIQuery, h, hr]
  · intro r hr
    simp [askAIQuery, hr]
  · intro e he hrl
    simp [askAIQuery, he, hrl]
  · intro e he hrl
    simp [askAIQuery, he, hrl]

/-- A first attempt that hits the rate limit, and a second that succeeds. -/
def c2Attempt : Nat → Except String String := fun n =>
  if n = 0 then Except.error "Rate limit exceeded" else Except.ok "second answer"

/-- Witness for C2 at a concrete attempt sequence: the rate-limited first
attempt triggers exactly one retry after a 20-unit delay, and the second
attempt's answer is returned. -/
theorem C2_rate_limit_retry_policy_witness :
    askAIQuery c2Attempt =
      { result := Except.ok "second answer", attempts := 2, delayUnits := 20 } := by
  have h := (C2_rate_limit_retry_policy c2Attempt).2.2.1
    "Rate limit exceeded" (by decide) (by decide)
  rw [h]
  decide

/-! ## Claim C8 -/

/-- C8: Every invocation of `send_email_with_attachments` either succeeds at
every step and returns `true` with nothing surfaced, or fails at some step
(missing configuration, unreadable attachment, connect, starttls, login,
send) and returns `false` together with a surfaced "Email Error" description;
the outcome is always one of these two, so no exception propagates past the
function's boundary. -/
theorem C8_email_boolean_outcome (env : MailEnv) (subject body : String)
    (audioPath pdfPath : Option String) :
    ((send_email_with_attachments env subject body audioPath pdfPath = (true, []) ∧
      sendSteps env audioPath pdfPath = Except.ok ()) ∨
     (∃ e, sendSteps env audioPath pdfPath = Except.error e ∧
       send_email_with_attachments env subject body audioPath pdfPath =
         (false, ["Email Error: " ++ e]))) ∧
    (∀ e, sendSteps env audioPath pdfPath = Except.error e →
      send_email_with_attachments env subject body audioPath pdfPath =
        (false, ["Email Error: " ++ e])) ∧
    (sendSteps env audioPath pdfPath = Except.ok () →
      send_email_with_attachments env subject body audioPath pdfPath =
        (true, [])) := by
  refine ⟨?_, ?_, ?_⟩
  · cases h : sendSteps env audioPath pdfPath with
    | ok u =>
      cases u
      exact Or.inl ⟨by simp [send_email_with_attachments, h], rfl⟩
    | error e =>
      exact Or.inr ⟨e, rfl, by simp [send_email_with_attachments, h]⟩
  · intro e he
    simp [send_email_with_attachments, he]
  · intro hok
    simp [send_email_with_attachments, hok]

/-- A mail environment whose port configuration is missing; all transport
steps would succeed. -/
def c8Env : MailEnv :=
  { emailUsername := some "user", emailPassword := some "pw",
    emailReceivers := some "a@example.com,b@example.com",
    emailHost := some "smtp.example.com", emailPort := none,
    readFile := fun _ => Except.ok [37],
    smtpConnect := Except.ok (), smtpStartTls := Except.ok (),
    smtpLogin := Except.ok (), smtpSend := Except.ok () }

/-- Witness for C8 at a concrete environment: a missing port configuration
value yields `false` with a surfaced "Email Error" description. -/
theorem C8_email_boolean_outcome_witness :
    send_email_with_attachments c8Env "subject" "body" none
        (some "auto_insights.pdf") =
      (false, ["Email Error: TypeError: int() argument must be a string"]) :=
  (C8_email_boolean_outcome c8Env "subject" "body" none
    (some "auto_insights.pdf")).2.1
    "TypeError: int() argument must be a string" (by decide)

/-! ## Claim C1 -/

theorem foldl_append_blocks (f : String × String → String) :
    ∀ (l : List (String × String)) (init : String),
      l.foldl (fun acc it => acc ++ f it) init = init ++ concatAll (l.map f)
  | [], init => by simp [concatAll]
  | x :: xs, init => by
    simp only [List.foldl_cons, List.map_cons, concatAll]
    rw [foldl_append_blocks f xs (init ++ f x), String.append_assoc]

/-- C1: A batch run over the 11-item insight catalog produces exactly one
entry per catalog item, in catalog order (the produced summary is the
concatenation of the per-item blocks in that order), and each entry holds
either the agent's textual answer for that item's composed prompt or the
"Skipped due to error" placeholder when that item's query fails; no per-item
failure aborts the batch (the run is total for every agent oracle). -/
theorem C1_batch_one_entry_per_item (agent : String → Except String String) :
    (generateAllEntries agent).length = 11 ∧
    (generateAllEntries agent).map Prod.fst = insight_options.map Prod.fst ∧
    generateAllSummary agent =
      concatAll ((generateAllEntries agent).map (fun e => entryBlock e.1 e.2)) ∧
    (∀ e ∈ generateAllEntries agent, ∃ pText, (e.1, pText) ∈ insight_options ∧
      ((∃ a, agent (mkInsightPrompt pText) = Except.ok a ∧ e.2 = a) ∨
       (∃ msg, agent (mkInsightPrompt pText) = Except.error msg ∧
         e.2 = skippedPlaceholder msg))) := by
  refine ⟨?_, ?_, ?_, ?_⟩
  · simp [generateAllEntries, insight_options]
  · simp [generateAllEntries]
  · rw [generateAllSummary, foldl_append_blocks
      (fun it => entryBlock it.1 (batchItemResult agent it.2)) insight_options ""]
    simp only [generateAllEntries, List.map_map, String.empty_append]
    rfl
  · intro e he
    simp only [generateAllEntries, List.mem_map] at he
    obtain ⟨it, hit, rfl⟩ := he
    refine ⟨it.2, hit, ?_⟩
    cases h : agent (mkInsightPrompt it.2) with
    | ok a => exact Or.inl ⟨a, rfl, by simp [batchItemResult, h]⟩
    | error msg => exact Or.inr ⟨msg, rfl, by simp [batchItemResult, h]⟩

/-- An agent oracle that fails on the prompt of catalog item 2 and answers
"42" on everything else. -/
def c1Agent : String → Except String String := fun p =>
  if p = mkInsightPrompt "Number of employees who have completed exactly 1 course."
  then Except.error "quota exceeded" else Except.ok "42"

/-- Witness for C1 at a concrete agent oracle that fails on one catalog item:
the batch still produces 11 entries, in catalog order, and the failed item's
entry holds the placeholder. -/
theorem C1_batch_one_entry_per_item_witness :
    (generateAllEntries c1Agent).length = 11 ∧
    (generateAllEntries c1Agent).map Prod.fst = insight_options.map Prod.fst ∧
    (generateAllEntries c1Agent)[1]? =
      some ("2. Employees with 1 completion",
        "[⚠️ Skipped due to error: quota exceeded]") ∧
    (generateAllEntries c1Agent)[0]? =
      some ("1. Employees with 2 or more completions", "42") := by
  refine ⟨(C1_batch_one_entry_per_item c1Agent).1,
    (C1_batch_one_entry_per_item c1Agent).2.1, by decide, by decide⟩

/-! ## Claim C3 -/

/-- An agent oracle that always fails (a non-rate-limit failure). -/
def failingAgent : String → Except String String := fun _ => Except.error "boom"

/-- A session state as left by an earlier successful action of the second
sheet: one stored report entry and an assembled report path. -/
def s2Prior : Sheet2State :=
  { reportData := [("Currently Enrolled",
      { insight := "old insight", chartType := ChartType.bar,
        chartPath := some "chart_Currently_Enrolled.png" })],
    finalPdf := some "final_report.pdf" }

/-- C3 counterexample: in the second sheet's "Generate Insights & Charts"
handler, a (non-rate-limit) agent failure corrupts prior session state and
is not caught by the handler: starting from a state holding one report entry
written by an earlier action, the failing action leaves
`st.session_state["report_data"]` empty (it was reset before the unguarded
agent call) and the exception escapes the handler. -/
theorem C3_counterexample :
    (generateInsightsHandler failingAgent ["Number of completions"] ""
      s2Prior).1.reportData ≠ s2Prior.reportData ∧
    (generateInsightsHandler failingAgent ["Number of completions"] ""
      s2Prior).2 = some "boom" := by
  decide

/-- C3 amended: in the insights sheet's "Generate Insight" handler, an agent
failure is caught, surfaced as an inline error message, and leaves session
state exactly as it was; but in the second sheet's "Generate Insights &
Charts" handler the agent calls are unguarded: the handler first resets the
stored report map to empty, so an agent failure on the first selected metric
propagates out of the handler and leaves the report map empty rather than as
it was before the action started. -/
theorem C3_amended_failure_isolation :
    (∀ (agent : String → Except String String) (label : String)
       (s : Sheet1State) (t e : String),
       lookupInsight label = some t → agent (mkInsightPrompt t) = Except.error e →
       generateInsightHandler agent label s = (s, ["Error: " ++ e])) ∧
    (∀ (agent : String → Except String String) (m : String) (ms : List String)
       (customText : String) (s : Sheet2State) (e : String),
       agent (giPrompt m customText) = Except.error e →
       generateInsightsHandler agent (m :: ms) customText s =
         ({ s with reportData := [] }, some e)) := by
  constructor
  · intro agent label s t e hl ha
    simp [generateInsightHandler, hl, ha]
  · intro agent m ms customText s e ha
    simp [generateInsightsHandler, giLoop, ha]

/-- Witness for the amended C3 at concrete inputs: the guarded sheet-1
handler surfaces the failure and keeps the state; the unguarded sheet-2
handler empties the report map and lets the failure escape. -/
theorem C3_amended_failure_isolation_witness :
    generateInsightHandler failingAgent "2. Employees with 1 completion"
        { lastInsight := some "previous", allInsights := none } =
      ({ lastInsight := some "previous", allInsights := none },
        ["Error: boom"]) ∧
    generateInsightsHandler failingAgent ["Number of completions"] "" s2Prior =
      ({ s2Prior with reportData := [] }, some "boom") := by
  constructor
  · exact (C3_amended_failure_isolation).1 failingAgent
      "2. Employees with 1 completion"
      { lastInsight := some "previous", allInsights := none }
      "Number of employees who have completed exactly 1 course." "boom"
      (by decide) rfl
  · exact (C3_amended_failure_isolation).2 failingAgent
      "Number of completions" [] "" s2Prior "boom" rfl

/-! ## Claim C9 -/

/-- C9 counterexample: the Smart Q&A ("Ask AI") flow is an adapter invocation
whose submitted prompt does not contain the task-framing sentence "Analyze
the dataset and return this insight:" at all — it composes a different
framing with the user's free text. -/
theorem C9_counterexample :
    containsSubList "Analyze the dataset and return this insight:".toList
      (askAIPrompt "Which platform has the most completions?").toList = false ∧
    askAIPrompt "Which platform has the most completions?" ≠
      mkInsightPrompt "Which platform has the most completions?" := by
  constructor <;> decide

/-- C9 amended: the catalog-driven adapter invocations (single insight,
Generate All, daily batch) compose the task-framing sentence "Analyze the
dataset and return this insight:" plus a blank line with the catalog prompt
verbatim — in particular the label "2. Employees with 1 completion"
contributes exactly "Number of employees who have completed exactly 1
course." — while the free-text Q&A invocation composes a different framing
("You are an AI analyst. ...") with the user's question. -/
theorem C9_amended_prompt_composition :
    (∀ t : String, (mkInsightPrompt t).toList =
      "Analyze the dataset and return this insight:\n\n".toList ++ t.toList) ∧
    (∀ q : String, (askAIPrompt q).toList =
      "\nYou are an AI analyst. Based on the dataset, answer the following question in 5 lines maximum:\n\n".toList
        ++ q.toList ++ "\n".toList) ∧
    lookupInsight "2. Employees with 1 completion" =
      some "Number of employees who have completed exactly 1 course." ∧
    mkInsightPrompt "Number of employees who have completed exactly 1 course." =
      "Analyze the dataset and return this insight:\n\nNumber of employees who have completed exactly 1 course." := by
  refine ⟨?_, ?_, by decide, by decide⟩
  · intro t
    simp [mkInsightPrompt, String.toList]
  · intro q
    simp [askAIPrompt, String.toList]

/-! ## Claim C5 -/

/-- Modelled from the claim's words, for comparison with the code: "for
every course, its count of course completions" — the number of records of
that course that carry a completion timestamp. -/
def claimCompletionCount (tbl : List Record) (c : String) : Nat :=
  (tbl.filter
    (fun r => r.courseName = c ∧ r.courseCompletionDate.isSome)).length

/-- One record of course "Advanced Python" that is registered but not
completed. -/
def tblC5 : List Record := [mkRec "Advanced Python" none none]

/-- C5 counterexample: the "Top 5 courses by completion" metric does not
compute completion counts.  On a table holding a single not-completed record
the metric's series gives that course the count 1, while its count of course
completions is 0. -/
theorem C5_counterexample :
    ¬ (∀ p ∈ top5CoursesData tblC5,
        p.2 = claimCompletionCount tblC5 p.1) := by
  decide

/-- C5 amended: the "Top 5 courses by completion" and "Bottom 5 courses by
completion" metrics compute, for every course, its count of records (all
rows with that course name, completed or not — not its completion count),
and select the 5 courses with the largest (respectively smallest) such
counts. -/
theorem C5_top_bottom_count_all_records (tbl : List Record) :
    (∀ p ∈ top5CoursesData tbl,
       p.2 = countOccs p.1 (tbl.map (fun r => r.courseName))) ∧
    (∀ p ∈ bottom5CoursesData tbl,
       p.2 = countOccs p.1 (tbl.map (fun r => r.courseName))) ∧
    (∀ c ∈ tbl.map (fun r => r.courseName),
       (c, countOccs c (tbl.map (fun r => r.courseName))) ∈
         valueCountsDesc (tbl.map (fun r => r.courseName))) ∧
    (top5CoursesData tbl).length ≤ 5 ∧
    (bottom5CoursesData tbl).length ≤ 5 ∧
    (∀ a ∈ top5CoursesData tbl,
       ∀ b ∈ (valueCountsDesc (tbl.map (fun r => r.courseName))).drop 5,
         b.2 ≤ a.2) ∧
    (∀ a ∈ bottom5CoursesData tbl,
       ∀ b ∈ (List.insertionSort countAscRel
               (valueCountsDesc (tbl.map (fun r => r.courseName)))).drop 5,
         a.2 ≤ b.2) := by
  refine ⟨?_, ?_, ?_, ?_, ?_, ?_, ?_⟩
  · intro p hp
    exact countsList_count (mem_valueCountsDesc.mp (List.mem_of_mem_take hp))
  · intro p hp
    have h1 := List.mem_of_mem_take hp
    have h2 := (List.perm_insertionSort countAscRel
      (valueCountsDesc (tbl.map (fun r => r.courseName)))).mem_iff.mp h1
    exact countsList_count (mem_valueCountsDesc.mp h2)
  · intro c hc
    exact mem_valueCountsDesc.mpr (countsList_complete hc)
  · simp only [top5CoursesData, List.length_take]
    exact Nat.min_le_left _ _
  · simp only [bottom5CoursesData, nsmallest5, List.length_take]
    exact Nat.min_le_left _ _
  · intro a ha b hb
    have ha' : a ∈ (valueCountsDesc (tbl.map (fun r => r.courseName))).take 5 := ha
    exact pairwise_take_drop
      (valueCountsDesc_sorted (tbl.map (fun r => r.courseName))) 5 a ha' b hb
  · intro a ha b hb
    have ha' : a ∈ (List.insertionSort countAscRel
        (valueCountsDesc (tbl.map (fun r => r.courseName)))).take 5 := ha
    exact pairwise_take_drop
      (List.sorted_insertionSort countAscRel
        (valueCountsDesc (tbl.map (fun r => r.courseName)))) 5 a ha' b hb

/-- A fixed concrete date. -/
def d1 : Date := { year := 2024, month := 3, day := 10 }

/-- Three records: course "A" twice (once completed), course "B" once. -/
def tblC5W : List Record :=
  [mkRec "A" none (some d1), mkRec "A" none none, mkRec "B" none none]

/-- Witness for the amended C5 at a concrete table: course "A" appears in
the top-5 series with its record count 2 (even though only one of its
records is completed). -/
theorem C5_top_bottom_count_all_records_witness :
    ("A", 2) ∈ top5CoursesData tblC5W ∧
    (2 : Nat) = countOccs "A" (tblC5W.map (fun r => r.courseName)) ∧
    (top5CoursesData tblC5W).length ≤ 5 := by
  refine ⟨by decide, ?_, (C5_top_bottom_count_all_records tblC5W).2.2.2.1⟩
  exact (C5_top_bottom_count_all_records tblC5W).1 ("A", 2) (by decide)

/-! ## Claim C6 -/

/-- C6: the "Currently Enrolled" metric includes a record iff its completion
timestamp is null (whatever its registration timestamp is, since the filter
constrains nothing else), then counts the included records by course name
and keeps the 5 largest counts; this is exactly the series the renderer
computes for that metric. -/
theorem C6_currently_enrolled_null_completion (tbl : List Record) :
    (∀ r : Record,
       r ∈ tbl.filter (fun x => x.courseCompletionDate.isNone) ↔
         (r ∈ tbl ∧ r.courseCompletionDate = none)) ∧
    (∀ p ∈ currentlyEnrolledData tbl,
       p.2 = countOccs p.1
         ((tbl.filter (fun x => x.courseCompletionDate.isNone)).map
           (fun r => r.courseName))) ∧
    (currentlyEnrolledData tbl).length ≤ 5 ∧
    (∀ a ∈ currentlyEnrolledData tbl,
       ∀ b ∈ (valueCountsDesc
               ((tbl.filter (fun x => x.courseCompletionDate.isNone)).map
                 (fun r => r.courseName))).drop 5,
         b.2 ≤ a.2) ∧
    metricData "Currently Enrolled" tbl =
      some (PlotData.cat (currentlyEnrolledData tbl)) := by
  refine ⟨?_, ?_, ?_, ?_, rfl⟩
  · intro r
    simp [List.mem_filter, Option.isNone_iff_eq_none]
  · intro p hp
    exact countsList_count (mem_valueCountsDesc.mp (List.mem_of_mem_take hp))
  · simp only [currentlyEnrolledData, List.length_take]
    exact Nat.min_le_left _ _
  · intro a ha b hb
    exact pairwise_take_drop (valueCountsDesc_sorted _) 5 a ha b hb

/-- Course "A": one enrolled-only record (with a registration date) and one
completed record; course "B": one enrolled-only record without registration. -/
def tblC6 : List Record :=
  [mkRec "A" (some d1) none, mkRec "A" none (some d1), mkRec "B" none none]

/-- Witness for C6 at a concrete table: the record with a registration date
but null completion is included, the record with a completion timestamp is
excluded, and course "A" is counted once among the included records. -/
theorem C6_currently_enrolled_null_completion_witness :
    mkRec "A" (some d1) none ∈
      tblC6.filter (fun x => x.courseCompletionDate.isNone) ∧
    mkRec "A" none (some d1) ∉
      tblC6.filter (fun x => x.courseCompletionDate.isNone) ∧
    ("A", 1) ∈ currentlyEnrolledData tblC6 ∧
    (1 : Nat) = countOccs "A"
      ((tblC6.filter (fun x => x.courseCompletionDate.isNone)).map
        (fun r => r.courseName)) := by
  refine ⟨?_, ?_, by decide, ?_⟩
  · exact ((C6_currently_enrolled_null_completion tblC6).1 _).mpr
      ⟨by decide, rfl⟩
  · intro hmem
    have hc := (((C6_currently_enrolled_null_completion tblC6).1 _).mp hmem).2
    exact absurd hc (by decide)
  · exact (C6_currently_enrolled_null_completion tblC6).2.1 ("A", 1) (by decide)

/-! ## Claim C7 -/

theorem diffFillZero_length (l : List Nat) :
    (diffFillZero l).length = l.length := by
  cases l with
  | nil => rfl
  | cons x xs =>
    simp only [diffFillZero, List.length_cons, List.length_zipWith]
    omega

/-- C7: the month-over-month completion-variance series is the first
difference of the monthly completion-count series with the first value
treated as zero: it has the same length as the monthly series, its first
value is 0, every later value is the difference between the month's count
and the previous month's count, and for every table whose monthly series
has a single element the variance series is exactly [0]. -/
theorem C7_variance_is_first_difference :
    (∀ l : List Nat, (diffFillZero l).length = l.length) ∧
    (∀ l : List Nat, l ≠ [] → (diffFillZero l)[0]? = some 0) ∧
    (∀ (l : List Nat) (i : Nat) (x y : Nat),
       l[i]? = some x → l[i+1]? = some y →
       (diffFillZero l)[i+1]? = some ((y : Int) - (x : Int))) ∧
    (∀ n : Nat, diffFillZero [n] = [0]) ∧
    (∀ tbl : List Record,
       (completionVariance tbl).map Prod.snd =
         diffFillZero ((monthCounts tbl).map Prod.snd)) ∧
    (∀ tbl : List Record, (monthCounts tbl).length = 1 →
       (completionVariance tbl).map Prod.snd = [0]) := by
  have hmap : ∀ tbl : List Record,
      (completionVariance tbl).map Prod.snd =
        diffFillZero ((monthCounts tbl).map Prod.snd) := by
    intro tbl
    simp only [completionVariance]
    exact List.map_snd_zip _ _
      (by rw [diffFillZero_length, List.length_map, List.length_map])
  refine ⟨fun l => diffFillZero_length l, ?_, ?_, fun n => rfl, hmap, ?_⟩
  · intro l hne
    cases l with
    | nil => exact absurd rfl hne
    | cons x xs => simp [diffFillZero]
  · intro l
    induction l with
    | nil =>
      intro i x y hx _
      simp at hx
    | cons a l' ih =>
      intro i x y hx hy
      cases l' with
      | nil =>
        cases i with
        | zero => simp at hy
        | succ j => simp at hy
      | cons b l'' =>
        cases i with
        | zero =>
          simp only [List.getElem?_cons_zero, Option.some.injEq] at hx
          simp only [List.getElem?_cons_succ, List.getElem?_cons_zero,
            Option.some.injEq] at hy
          subst hx
          subst hy
          simp [diffFillZero]
        | succ j =>
          have hx' : (b :: l'')[j]? = some x := by
            simpa using hx
          have hy' : (b :: l'')[j+1]? = some y := by
            simpa using hy
          have h := ih j x y hx' hy'
          simpa [diffFillZero] using h
  · intro tbl hlen
    obtain ⟨q, hq⟩ := List.length_eq_one.mp hlen
    rw [hmap tbl, hq]
    rfl

/-- Two completions in the same month. -/
def tblC7 : List Record :=
  [mkRec "A" none (some d1), mkRec "B" none (some { year := 2024, month := 3, day := 15 })]

/-- Witness for C7 at a concrete table whose monthly series has one element:
the variance series is the single value zero. -/
theorem C7_variance_is_first_difference_witness :
    (monthCounts tblC7).length = 1 ∧
    (completionVariance tblC7).map Prod.snd = [0] :=
  ⟨by decide, C7_variance_is_first_difference.2.2.2.2.2 tblC7 (by decide)⟩

/-! ## Claim C10 -/

/-- C10: the renderer only computes an aggregate series for the nine metric
names of the fixed list; called with any metric name outside that list it
fails (the local `data` is never assigned, so its first use raises), and
none of the actions it performed before failing drew any chart content. -/
theorem C10_unknown_metric_fails (metric : String) (ct : ChartType)
    (tbl : List Record) (h : metric ∉ metrics) :
    ((render_chart metric ct tbl).error).isSome = true ∧
    (∀ a ∈ (render_chart metric ct tbl).actions, a.isContent = false) := by
  have h1 : ¬ metric = "Completion by Platform" :=
    fun e => h (by rw [e]; decide)
  have h2 : ¬ metric = "Completion by Employee Role" :=
    fun e => h (by rw [e]; decide)
  have h3 : ¬ metric = "Completion by Organization" :=
    fun e => h (by rw [e]; decide)
  have h4 : ¬ metric = "Top 5 courses by completion" :=
    fun e => h (by rw [e]; decide)
  have h5 : ¬ metric = "Bottom 5 courses by completion" :=
    fun e => h (by rw [e]; decide)
  have h6 : ¬ metric = "Currently Enrolled" :=
    fun e => h (by rw [e]; decide)
  have h7 : ¬ metric = "Number of completions" :=
    fun e => h (by rw [e]; decide)
  have h8 : ¬ metric = "Completion variance to previous month" :=
    fun e => h (by rw [e]; decide)
  have hd : ¬ metric = dualTrendMetric :=
    fun e => h (by rw [e]; decide)
  have hm : metricData metric tbl = none := by
    simp [metricData, h1, h2, h3, h4, h5, h6, h7, h8]
  cases ct <;> simp [render_chart, hd, hm, DrawAction.isContent]

/-- Witness for C10: the name "Average score" is outside the metric list,
and rendering it fails without drawing chart content. -/
theorem C10_unknown_metric_fails_witness :
    ((render_chart "Average score" ChartType.bar []).error).isSome = true ∧
    (∀ a ∈ (render_chart "Average score" ChartType.bar []).actions,
      a.isContent = false) :=
  C10_unknown_metric_fails "Average score" ChartType.bar [] (by decide)

end Learning3
